import Mathlib

/-!
Verification of the `@aws-cdk/aws-synthetics` module (canary construct).

The development shallowly embeds the TypeScript sources
`lib/canary.ts` (the revision containing `Rate`, `Canary.verifyName`,
`Canary.verifyHandler`, `Canary.metric`) and `lib/code.ts`
(`InlineCode`, `S3Code`, `AssetCode`, `Test.validateHandler`).

Conventions of the embedding:
- JavaScript strings are embedded as `List Char`.  (`String.length` in
  JavaScript counts UTF-16 code units; `List.length` counts code points.
  The two agree on all strings appearing in this module's validation
  logic, which is ASCII.)
- `String.prototype.split` with a single-character separator is embedded
  as `jsSplit`.
- The JavaScript `Number(string)` conversion is embedded as `jsNumber`,
  following the ECMAScript StringNumericLiteral grammar (with the full
  WhiteSpace and LineTerminator trimming, including the Space_Separator
  code points) and rounding the parsed value to the nearest IEEE-754
  binary64 double (ties to even, overflow to Infinity), represented
  exactly as a dyadic rational.
- `throw new Error(...)` is embedded as `Except.error` carrying a value
  of the inductive error type `SynthError` identifying the `throw` site.
-/

set_option maxRecDepth 4096

deriving instance DecidableEq for Except

namespace AwsSynthetics

/-- JavaScript `s.split(sep)` for a single-character separator: splits at
every occurrence of `sep`, keeping empty segments; `"".split(sep)` is
`[""]`. -/
def jsSplit (sep : Char) : List Char → List (List Char)
  | [] => [[]]
  | c :: cs =>
    match jsSplit sep cs with
    | [] => []
    | r :: rs => if c = sep then [] :: r :: rs else (c :: r) :: rs

theorem jsSplit_ne_nil (sep : Char) (s : List Char) : jsSplit sep s ≠ [] := by
  induction s with
  | nil => simp [jsSplit]
  | cons c cs ih =>
    simp only [jsSplit]
    cases h : jsSplit sep cs with
    | nil => exact absurd h ih
    | cons r rs =>
      by_cases hc : c = sep <;> simp [hc]

/-- A split has exactly one segment iff the separator does not occur. -/
theorem jsSplit_eq_single (sep : Char) (s a : List Char) :
    jsSplit sep s = [a] ↔ s = a ∧ sep ∉ a := by
  induction s generalizing a with
  | nil =>
    simp only [jsSplit]
    constructor
    · intro h
      have ha : a = [] := by simpa using h.symm
      simp [ha]
    · rintro ⟨h, -⟩
      simp [← h]
  | cons c cs ih =>
    simp only [jsSplit]
    cases h : jsSplit sep cs with
    | nil => exact absurd h (jsSplit_ne_nil sep cs)
    | cons r rs =>
      by_cases hc : c = sep
      · simp only [if_pos hc]
        constructor
        · intro h'
          exact absurd h' (by simp)
        · rintro ⟨h', hmem⟩
          exact absurd (h' ▸ (hc ▸ List.mem_cons_self c cs)) hmem
      · simp only [if_neg hc]
        constructor
        · intro h'
          have h'' : c :: r = a ∧ rs = [] := by simpa using h'
          obtain ⟨h1, h2⟩ := h''
          rw [h2] at h
          obtain ⟨hcs, hnr⟩ := (ih r).mp h
          constructor
          · rw [← h1, hcs]
          · rw [← h1]
            simp only [List.mem_cons]
            rintro (h3 | h3)
            · exact hc h3.symm
            · exact hnr h3
        · rintro ⟨h', hmem⟩
          rw [← h'] at hmem
          have hncs : sep ∉ cs := fun hm => hmem (List.mem_cons_of_mem _ hm)
          have := (ih cs).mpr ⟨rfl, hncs⟩
          rw [h] at this
          have h'' : r = cs ∧ rs = [] := by simpa using this
          rw [h''.1, h''.2, ← h']

/-- A split has exactly two segments iff the separator occurs exactly
once: `s = a ++ sep :: b` with `sep` in neither part. -/
theorem jsSplit_eq_pair (sep : Char) (s a b : List Char) :
    jsSplit sep s = [a, b] ↔ s = a ++ sep :: b ∧ sep ∉ a ∧ sep ∉ b := by
  induction s generalizing a with
  | nil =>
    simp only [jsSplit]
    constructor
    · intro h
      exact absurd h (by simp)
    · rintro ⟨h, -⟩
      exact absurd h (by simp)
  | cons c cs ih =>
    simp only [jsSplit]
    cases h : jsSplit sep cs with
    | nil => exact absurd h (jsSplit_ne_nil sep cs)
    | cons r rs =>
      by_cases hc : c = sep
      · simp only [if_pos hc]
        constructor
        · intro h'
          have h'' : [] = a ∧ r = b ∧ rs = [] := by simpa using h'
          obtain ⟨ha, hr, hrs⟩ := h''
          rw [hr, hrs] at h
          obtain ⟨hcs, hnb⟩ := (jsSplit_eq_single sep cs b).mp h
          refine ⟨?_, by simp [← ha], hnb⟩
          rw [← ha, hcs, hc]
          rfl
        · rintro ⟨h', hna, hnb⟩
          have ha : a = [] := by
            cases a with
            | nil => rfl
            | cons a0 as =>
              have hca : c = a0 := by simpa using congrArg (List.headD · ' ') h'
              exact absurd (by rw [← hca, ← hc]; exact List.mem_cons_self _ _) hna
          rw [ha] at h'
          have hcs : cs = b := by
            have := congrArg List.tail h'
            simpa [hc] using this
          have := (jsSplit_eq_single sep cs b).mpr ⟨hcs, hnb⟩
          rw [h] at this
          have h'' : r = b ∧ rs = [] := by simpa using this
          rw [ha, h''.1, h''.2]
      · simp only [if_neg hc]
        constructor
        · intro h'
          have h'' : c :: r = a ∧ rs = [b] := by simpa using h'
          obtain ⟨h1, h2⟩ := h''
          rw [h2] at h
          obtain ⟨hcs, hnr, hnb⟩ := (ih r).mp h
          refine ⟨?_, ?_, hnb⟩
          · rw [← h1, hcs]
            rfl
          · rw [← h1]
            simp only [List.mem_cons]
            rintro (h3 | h3)
            · exact hc h3.symm
            · exact hnr h3
        · rintro ⟨h', hna, hnb⟩
          cases a with
          | nil =>
            have : c = sep := by simpa using congrArg (List.headD · ' ') h'
            exact absurd this hc
          | cons a0 as =>
            have hca : c = a0 := by simpa using congrArg (List.headD · ' ') h'
            have hcs : cs = as ++ sep :: b := by
              have := congrArg List.tail h'
              simpa using this
            have hnas : sep ∉ as := fun hm => hna (List.mem_cons_of_mem _ hm)
            have := (ih as).mpr ⟨hcs, hnas, hnb⟩
            rw [h] at this
            have h'' : r = as ∧ rs = [b] := by simpa using this
            rw [h''.1, h''.2, hca]

/-! ### JavaScript `Number(string)` -/

/-- White space stripped by the ECMAScript string-to-number conversion:
the WhiteSpace production (TAB, VT, FF, SP, NBSP, ZWNBSP, and every
Unicode Space_Separator code point: U+1680, U+2000-U+200A, U+202F,
U+205F, U+3000) together with the LineTerminator production (LF, CR,
LS, PS). -/
def isJsWhitespace (c : Char) : Bool :=
  c.toNat = 0x09 || c.toNat = 0x0a || c.toNat = 0x0b || c.toNat = 0x0c ||
  c.toNat = 0x0d || c.toNat = 0x20 || c.toNat = 0xa0 || c.toNat = 0x1680 ||
  (0x2000 ≤ c.toNat && c.toNat ≤ 0x200a) || c.toNat = 0x2028 ||
  c.toNat = 0x2029 || c.toNat = 0x202f || c.toNat = 0x205f ||
  c.toNat = 0x3000 || c.toNat = 0xfeff

/-- Strip leading and trailing JavaScript white space. -/
def trimJsWs (s : List Char) : List Char :=
  ((s.dropWhile (isJsWhitespace ·)).reverse.dropWhile (isJsWhitespace ·)).reverse

def isDecDigit (c : Char) : Bool := '0' ≤ c && c ≤ '9'

/-- Value of a (hexadecimal) digit character, `none` on a non-digit. -/
def digitVal? (c : Char) : Option Nat :=
  if '0' ≤ c && c ≤ '9' then some (c.toNat - 48)
  else if 'a' ≤ c && c ≤ 'f' then some (c.toNat - 87)
  else if 'A' ≤ c && c ≤ 'F' then some (c.toNat - 55)
  else none

/-- Value of a nonempty digit string in the given base; `none` if the
string is empty or contains a character that is not a digit below the
base. -/
def radixVal? (base : Nat) (s : List Char) : Option Nat :=
  if s.isEmpty then none
  else
    s.foldl
      (fun acc c =>
        match acc, digitVal? c with
        | some a, some d => if d < base then some (base * a + d) else none
        | _, _ => none)
      (some 0)

def decDigitsVal (s : List Char) : Nat :=
  s.foldl (fun acc c => 10 * acc + (c.toNat - 48)) 0

/-- The exact mathematical value `num / 10 ^ pow10` of a parsed
StrUnsignedDecimalLiteral, before IEEE-754 rounding. -/
structure DecFrac where
  num : Int
  pow10 : Nat
deriving DecidableEq, Repr

/-- Apply an optional ExponentPart tail to an already-parsed mantissa:
the tail must be empty or `e`/`E`, an optional sign, and one or more
decimal digits. -/
def parseExpTail (m : DecFrac) : List Char → Option DecFrac
  | [] => some m
  | e :: r =>
    if e = 'e' || e = 'E' then
      let (negExp, d) :=
        match r with
        | '+' :: d => (false, d)
        | '-' :: d => (true, d)
        | d => (false, d)
      if d.isEmpty || !d.all isDecDigit then none
      else if negExp then some ⟨m.num, m.pow10 + decDigitsVal d⟩
      else some ⟨m.num * 10 ^ decDigitsVal d, m.pow10⟩
    else none

/-- ECMAScript StrUnsignedDecimalLiteral without the `Infinity`
alternative: `Digits ['.' Digits?] Exp?` or `'.' Digits Exp?`. -/
def parseDecLit (s : List Char) : Option DecFrac :=
  let intPart := s.takeWhile isDecDigit
  let rest := s.dropWhile isDecDigit
  match rest with
  | '.' :: r2 =>
    let fracPart := r2.takeWhile isDecDigit
    let rest2 := r2.dropWhile isDecDigit
    if intPart.isEmpty && fracPart.isEmpty then none
    else
      parseExpTail
        ⟨(decDigitsVal intPart : Int) * 10 ^ fracPart.length + decDigitsVal fracPart,
          fracPart.length⟩
        rest2
  | _ =>
    if intPart.isEmpty then none
    else parseExpTail ⟨(decDigitsVal intPart : Int), 0⟩ rest

/-! #### IEEE-754 binary64 rounding

JavaScript numbers are binary64 doubles, so `Number(string)` yields the
parsed literal value correctly rounded (round-to-nearest, ties-to-even),
and the verifier's `> 1` / `> 60` comparisons act on that rounded value:
`Number("60.0000000000000001")` is exactly 60.  A finite double is the
dyadic rational `m * 2 ^ e`, which the model represents exactly. -/

/-- Fuel-driven floor of the base-2 logarithm (structural recursion, so
the kernel can evaluate it on literals; fuel `n` suffices for input `n`). -/
def natLog2F : Nat → Nat → Nat
  | 0, _ => 0
  | fuel + 1, n => if 2 ≤ n then natLog2F fuel (n / 2) + 1 else 0

def natLog2 (n : Nat) : Nat := natLog2F n n

/-- `2 ^ e ≤ a / b`, by cross-multiplication. -/
def ratPow2Le (e : Int) (a b : Nat) : Bool :=
  if 0 ≤ e then b * 2 ^ e.toNat ≤ a else b ≤ a * 2 ^ (-e).toNat

/-- Floor of `log2 (a / b)` for positive `a` and `b`: the true value is
within one of `log2 a - log2 b`, so testing the candidates settles it. -/
def ratFloorLog2 (a b : Nat) : Int :=
  let e0 : Int := (natLog2 a : Int) - (natLog2 b : Int)
  if ratPow2Le (e0 + 1) a b then e0 + 1
  else if ratPow2Le e0 a b then e0
  else e0 - 1

/-- Round the nonnegative rational `a / b` to the nearest integer, ties
to even. -/
def natRoundNearestEven (a b : Nat) : Nat :=
  let q := a / b
  let r := a % b
  if 2 * r < b then q
  else if b < 2 * r then q + 1
  else if q % 2 = 0 then q
  else q + 1

/-- A dyadic rational `m * 2 ^ e`: the exact value of a finite IEEE-754
binary64 number. -/
structure Dyadic where
  m : Int
  e : Int
deriving DecidableEq, Repr

def Dyadic.neg (d : Dyadic) : Dyadic := ⟨-d.m, d.e⟩

/-- `m * 2 ^ e > n`, by cross-multiplication. -/
def Dyadic.gtNat (d : Dyadic) (n : Nat) : Bool :=
  if 0 ≤ d.e then (n : Int) < d.m * 2 ^ d.e.toNat
  else (n : Int) * 2 ^ (-d.e).toNat < d.m

/-- Round the positive rational `a / b` (`a, b ≥ 1`) to the nearest
IEEE-754 binary64 value, ties to even; `none` is overflow to +Infinity.
In the normal range the significand gets 52 fractional bits (with the
carry `2 ^ 53` bumping the exponent); below it, rounding happens on the
fixed subnormal grid `2 ^ -1074` (possibly to zero). -/
def roundPosRatToDouble (a b : Nat) : Option Dyadic :=
  let e := ratFloorLog2 a b
  if e < -1022 then
    some ⟨(natRoundNearestEven (a * 2 ^ 1074) b : Int), -1074⟩
  else
    let shift : Int := 52 - e
    let num := if 0 ≤ shift then a * 2 ^ shift.toNat else a
    let den := if 0 ≤ shift then b else b * 2 ^ (-shift).toNat
    let n := natRoundNearestEven num den
    let c : Nat := if n = 2 ^ 53 then 2 ^ 52 else n
    let e2 : Int := if n = 2 ^ 53 then e + 1 else e
    if 1023 < e2 then none
    else some ⟨(c : Int), e2 - 52⟩

/-- Result of the JavaScript `Number(string)` conversion: NaN, an
infinity, or the exact dyadic value of a finite double. -/
inductive JsNum where
  | nan : JsNum
  | posInf : JsNum
  | negInf : JsNum
  | val (d : Dyadic) : JsNum
deriving DecidableEq, Repr

def JsNum.neg : JsNum → JsNum
  | nan => nan
  | posInf => negInf
  | negInf => posInf
  | val d => val d.neg

def JsNum.isNaN : JsNum → Bool
  | nan => true
  | _ => false

/-- JavaScript `>` between a converted number and a natural-number
constant; any comparison against NaN is false. -/
def JsNum.gtNat : JsNum → Nat → Bool
  | nan, _ => false
  | posInf, _ => true
  | negInf, _ => false
  | val d, n => d.gtNat n

/-- The binary64 value of a nonnegative integer (hex, octal and binary
literals round too: `2 ^ 53 + 1` rounds to `2 ^ 53`). -/
def natToDouble (n : Nat) : JsNum :=
  if n = 0 then .val ⟨0, 0⟩
  else
    match roundPosRatToDouble n 1 with
    | some d => .val d
    | none => .posInf

/-- The binary64 value of a parsed decimal literal: its exact value
`num / 10 ^ pow10` correctly rounded; overflow yields +Infinity. -/
def DecFrac.toJsNum (f : DecFrac) : JsNum :=
  if f.num ≤ 0 then .val ⟨0, 0⟩
  else
    match roundPosRatToDouble f.num.toNat (10 ^ f.pow10) with
    | some d => .val d
    | none => .posInf

/-- StrUnsignedDecimalLiteral including the `Infinity` alternative. -/
def parseUnsigned (s : List Char) : JsNum :=
  if s = "Infinity".data then .posInf
  else
    match parseDecLit s with
    | some f => f.toJsNum
    | none => .nan

/-- JavaScript `Number(string)`: trim white space; empty means `0`; an
optional sign applies to a decimal literal or `Infinity`; `0x`/`0o`/`0b`
prefixes introduce unsigned non-decimal integer literals; anything else
is NaN.  Finite results are the IEEE-754 binary64 doubles JavaScript
computes, exactly. -/
def jsNumber (s : List Char) : JsNum :=
  match trimJsWs s with
  | [] => .val ⟨0, 0⟩
  | '+' :: r => parseUnsigned r
  | '-' :: r => (parseUnsigned r).neg
  | '0' :: c :: r =>
    if c = 'x' || c = 'X' then
      match radixVal? 16 r with
      | some n => natToDouble n
      | none => .nan
    else if c = 'o' || c = 'O' then
      match radixVal? 8 r with
      | some n => natToDouble n
      | none => .nan
    else if c = 'b' || c = 'B' then
      match radixVal? 2 r with
      | some n => natToDouble n
      | none => .nan
    else parseUnsigned ('0' :: c :: r)
  | t => parseUnsigned t

/-! ### Errors

Each constructor stands for one `throw new Error(...)` site of the
sources; quoting the message strings verbatim is not needed for the
claims, which only distinguish the throw sites. -/

inductive SynthError where
  /-- canary.ts: Expression must follow the syntax rate(number unit) -/
  | rateFormat : SynthError
  /-- canary.ts: Expression must not be greater than 1 hour -/
  | rateRange : SynthError
  /-- canary.ts / code.ts: Canary Handler must end in .handler -/
  | handlerFormat : SynthError
  /-- canary.ts / code.ts: Canary Handler must be less than 21 characters -/
  | handlerLength : SynthError
  /-- canary.ts: Canary Name must be lowercase, numbers, hyphens, or underscores -/
  | nameFormat : SynthError
  /-- canary.ts: Canary Name must be less than 21 characters -/
  | nameLength : SynthError
  /-- code.ts: Canary inline code cannot be empty -/
  | inlineEmpty : SynthError
  /-- code.ts: Canary source is too large, must be at most the maximum but is `n` -/
  | inlineTooLarge (n : Nat) : SynthError
  /-- code.ts: Asset must be a .zip file or a directory -/
  | assetNotZip : SynthError
deriving DecidableEq, Repr

/-! ### Rate (canary.ts, third revision, lines 740-793) -/

structure Rate where
  expression : List Char
deriving DecidableEq, Repr

/-- `Rate.verifyExpression` (canary.ts lines 778-792):

```
const exp = expression.split(' ');
const rateAndNumber = exp[0].split('(');
if (exp.length !== 2 || rateAndNumber.length !== 2 ||
    rateAndNumber[0] !== 'rate' || isNaN(Number(rateAndNumber[1])) ||
    (exp[1] !== 'minute)' && exp[1] !== 'minutes)' && exp[1] !== 'hour)'))
  throw format error;
if (exp[1] === 'hour)' && Number(rateAndNumber[1]) > 1 ||
    exp[1] === 'minutes)' && Number(rateAndNumber[1]) > 60)
  throw range error;
```

`exp[1]` and `rateAndNumber[1]` are embedded as `List.getD _ 1 []`; the
access is only reached (short-circuit `||`) or only relevant when the
corresponding length check has already passed, so the `[]` default never
matters. -/
def Rate.verifyExpression (expression : List Char) : Except SynthError Unit :=
  let exp := jsSplit ' ' expression
  let rateAndNumber := jsSplit '(' (exp.headD [])
  if exp.length ≠ 2 ∨ rateAndNumber.length ≠ 2 ∨
      rateAndNumber.headD [] ≠ "rate".data ∨
      (jsNumber (rateAndNumber.getD 1 [])).isNaN ∨
      (exp.getD 1 [] ≠ "minute)".data ∧ exp.getD 1 [] ≠ "minutes)".data ∧
        exp.getD 1 [] ≠ "hour)".data) then
    .error .rateFormat
  else if (exp.getD 1 [] = "hour)".data ∧ (jsNumber (rateAndNumber.getD 1 [])).gtNat 1) ∨
      (exp.getD 1 [] = "minutes)".data ∧ (jsNumber (rateAndNumber.getD 1 [])).gtNat 60) then
    .error .rateRange
  else
    .ok ()

/-- The `Rate` constructor: verify, then store the expression. -/
def Rate.new (expression : List Char) : Except SynthError Rate := do
  Rate.verifyExpression expression
  return ⟨expression⟩

def Rate.ONE_MINUTE : Rate := ⟨"rate(1 minute)".data⟩

def Rate.FIVE_MINUTES : Rate := ⟨"rate(5 minutes)".data⟩

def Rate.ONE_HOUR : Rate := ⟨"rate(1 hour)".data⟩

def Rate.RUN_ONCE : Rate := ⟨"rate(0 minute)".data⟩

/-- The `Expression` class (canary.ts lines 56-92 and the identical copy
in the unnamed revision): a plain wrapper with NO validation in its
constructor. -/
structure Expression where
  expression : List Char
deriving DecidableEq, Repr

def Expression.ONE_MINUTE : Expression := ⟨"rate(1 minute)".data⟩

def Expression.FIVE_MINUTES : Expression := ⟨"rate(5 minutes)".data⟩

def Expression.ONE_HOUR : Expression := ⟨"rate(1 hour)".data⟩

/-- canary.ts line 75: `new Expression('rate(0 minute')` — the closing
parenthesis is missing in the source. -/
def Expression.RUN_ONCE : Expression := ⟨"rate(0 minute".data⟩

example : Rate.new "rate(20 minutes)".data = .ok ⟨"rate(20 minutes)".data⟩ := by decide
example : Rate.new "rate(100 minutes)".data = .error .rateRange := by decide
example : Rate.new "rate(1_minute)".data = .error .rateFormat := by decide
example : Rate.new "rate(1.5 minutes)".data = .ok ⟨"rate(1.5 minutes)".data⟩ := by decide
example : Rate.new "rate(1 hour)".data = .ok ⟨"rate(1 hour)".data⟩ := by decide
example : Rate.new "rate(2 hour)".data = .error .rateRange := by decide
example : Rate.new "rate(0 minute".data = .error .rateFormat := by decide
example : Rate.new "rate( minute)".data = .ok ⟨"rate( minute)".data⟩ := by decide
example : Rate.new "rate(\u20031 minutes)".data =
    .ok ⟨"rate(\u20031 minutes)".data⟩ := by decide
example : Rate.new "rate(60.0000000000000001 minutes)".data =
    .ok ⟨"rate(60.0000000000000001 minutes)".data⟩ := by decide
example : Rate.new "rate(1.0000000000000001 hour)".data =
    .ok ⟨"rate(1.0000000000000001 hour)".data⟩ := by decide
example : Rate.new "rate(60.1 minutes)".data = .error .rateRange := by decide
example : Rate.new "rate(1.1 hour)".data = .error .rateRange := by decide
example : jsNumber "0x20000000000001".data = JsNum.val ⟨4503599627370496, 1⟩ := by decide
example : jsNumber "9007199254740992".data = JsNum.val ⟨4503599627370496, 1⟩ := by decide

/-! ### Handler and name validation -/

/-- `Canary.verifyHandler` (canary.ts lines 1101-1109):

```
if (handler.split('.').length !== 2 || handler.split('.')[1] !== 'handler')
  throw new Error('Canary Handler must end in .handler');
if (handler.length > 21)
  throw new Error('Canary Handler must be less than 21 characters.');
return handler;
``` -/
def Canary.verifyHandler (handler : List Char) : Except SynthError (List Char) :=
  if (jsSplit '.' handler).length ≠ 2 ∨ (jsSplit '.' handler).getD 1 [] ≠ "handler".data then
    .error .handlerFormat
  else if handler.length > 21 then
    .error .handlerLength
  else
    .ok handler

/-- `Test.validateHandler` (code.ts lines 265-272):

```
if (!handler.endsWith('.handler')) throw ...;
if (handler.length > 21) throw ...;
``` -/
def Test.validateHandler (handler : List Char) : Except SynthError Unit :=
  if !(".handler".data.isSuffixOf handler) then
    .error .handlerFormat
  else if handler.length > 21 then
    .error .handlerLength
  else
    .ok ()

/-- Character class of the regular expression `[0-9a-z_-]`. -/
def isNameChar (c : Char) : Bool :=
  ('0' ≤ c && c ≤ '9') || ('a' ≤ c && c ≤ 'z') || c = '_' || c = '-'

/-- `new RegExp('^[0-9a-z_-]+$').test(name)` (in the TypeScript string
literal `'^[0-9a-z_\\-]+$'` the backslash escapes to a plain hyphen):
the anchored whole-string test holds iff the name is nonempty and every
character is in the class. -/
def nameRegexTest (name : List Char) : Bool :=
  !name.isEmpty && name.all isNameChar

/-- `Canary.verifyName` (canary.ts lines 1117-1126):

```
const regex = new RegExp('^[0-9a-z_\\-]+$');
if (!regex.test(name)) throw new Error('Canary Name must be lowercase, ...');
if (name.length > 21) throw new Error('Canary Name must be less than 21 characters');
return name;
``` -/
def Canary.verifyName (name : List Char) : Except SynthError (List Char) :=
  if !nameRegexTest name then
    .error .nameFormat
  else if name.length > 21 then
    .error .nameLength
  else
    .ok name

/-! ### Code variants (code.ts) -/

structure S3Location where
  bucketName : List Char
  objectKey : List Char
  objectVersion : Option (List Char) := none
deriving DecidableEq, Repr

/-- `CodeConfig` (code.ts lines 119-133): mutually exclusive fields. -/
structure CodeConfig where
  s3Location : Option S3Location := none
  inlineCode : Option (List Char) := none
deriving DecidableEq, Repr

structure InlineCode where
  code : List Char
deriving DecidableEq, Repr

/-- The `InlineCode` constructor (code.ts lines 163-176, ceiling 4096):

```
if (code.length === 0) throw new Error('Canary inline code cannot be empty');
if (code.length > 4096) throw new Error('Canary source is too large, must be <= 4096 but is ' + code.length);
``` -/
def InlineCode.new (code : List Char) : Except SynthError InlineCode :=
  if code.length = 0 then .error .inlineEmpty
  else if code.length > 4096 then .error (.inlineTooLarge code.length)
  else .ok ⟨code⟩

/-- The `InlineCode` constructor of the revision in src/unnamed/part_004
(lines 110-128): identical, except that the ceiling is 460800. -/
def InlineCodeV2.new (code : List Char) : Except SynthError InlineCode :=
  if code.length = 0 then .error .inlineEmpty
  else if code.length > 460800 then .error (.inlineTooLarge code.length)
  else .ok ⟨code⟩

/-- `InlineCode.bind` (code.ts lines 183-187): `return { inlineCode: this.code }`. -/
def InlineCode.bindConfig (c : InlineCode) : CodeConfig :=
  { inlineCode := some c.code }

/-- `S3Code` (code.ts lines 135-158); the constructor copies
`bucket.bucketName` (its emptiness check concerns an external bucket
object and is not modelled). -/
structure S3Code where
  bucketName : List Char
  key : List Char
  objectVersion : Option (List Char)
deriving DecidableEq, Repr

/-- `S3Code.bind` (code.ts lines 149-157). -/
def S3Code.bindConfig (c : S3Code) : CodeConfig :=
  { s3Location := some ⟨c.bucketName, c.key, c.objectVersion⟩ }

/-- The relevant observable fields of an `s3_assets.Asset` produced by
the external asset-packaging service. -/
structure AssetRef where
  s3BucketName : List Char
  s3ObjectKey : List Char
  isZipArchive : Bool
deriving DecidableEq, Repr

/-- `AssetCode` (code.ts lines 47-110): a path plus the private mutable
cache `this.asset`. -/
structure AssetCode where
  path : List Char
  asset : Option AssetRef := none
deriving DecidableEq, Repr

/-- `AssetCode.bind` (code.ts lines 58-75):

```
if (!this.asset) { this.asset = this.createAsset(scope); }
if (!this.asset.isZipArchive) throw new Error('Asset must be a .zip file or a directory ...');
return { s3Location: { bucketName: ..., objectKey: ... } };
```

`createAsset` calls the external packaging service; `newAsset` is the
asset it would produce on this call, injected as a parameter.  The
returned triple is the updated object (the mutated `this.asset` cache),
the list of assets actually created on this call, and the result. -/
def AssetCode.bindAsset (c : AssetCode) (newAsset : AssetRef) :
    AssetCode × List AssetRef × Except SynthError CodeConfig :=
  match c.asset with
  | some a =>
    (c, [],
      if !a.isZipArchive then .error .assetNotZip
      else .ok { s3Location := some ⟨a.s3BucketName, a.s3ObjectKey, none⟩ })
  | none =>
    (⟨c.path, some newAsset⟩, [newAsset],
      if !newAsset.isZipArchive then .error .assetNotZip
      else .ok { s3Location := some ⟨newAsset.s3BucketName, newAsset.s3ObjectKey, none⟩ })

/-- The polymorphic `Code` (code.ts): inline, S3 object, or local asset. -/
inductive Code where
  | inline (c : InlineCode)
  | s3 (c : S3Code)
  | asset (c : AssetCode)
deriving DecidableEq, Repr

/-- `Code.bind`: dispatch to the variant.  Inline and S3 binds are pure;
the asset bind may mutate the cache and create an asset. -/
def Code.bind (code : Code) (newAsset : AssetRef) :
    Code × List AssetRef × Except SynthError CodeConfig :=
  match code with
  | .inline c => (code, [], .ok c.bindConfig)
  | .s3 c => (code, [], .ok c.bindConfig)
  | .asset c =>
    match c.bindAsset newAsset with
    | (c2, created, res) => (.asset c2, created, res)

example : Canary.verifyHandler "index.handler".data = .ok "index.handler".data := by decide
example : Canary.verifyHandler "index.function".data = .error .handlerFormat := by decide
example : Canary.verifyHandler "a.b.handler".data = .error .handlerFormat := by decide
example : Test.validateHandler "a.b.handler".data = .ok () := by decide
example : Canary.verifyName "mycanary".data = .ok "mycanary".data := by decide
example : Canary.verifyName "MyCanary".data = .error .nameFormat := by decide
example : InlineCode.new "".data = .error .inlineEmpty := by decide
example : InlineCode.new "foo".data = .ok ⟨"foo".data⟩ := by decide

/-! ### The Canary constructor (canary.ts lines 987-1044) -/

structure PolicyStatement where
  resources : List (List Char)
  actions : List (List Char)
deriving DecidableEq, Repr

/-- An IAM role as observed by this module: the service principal it is
assumable by, its inline policy statements, and the ARN it reports.  The
ARN of a freshly created role is a deploy-time token, represented by the
placeholder `serviceRoleArn`. -/
structure RoleRef where
  assumedBy : List Char
  inlinePolicies : List PolicyStatement
  roleArn : List Char
deriving DecidableEq, Repr

/-- The seven actions of the policy document built at canary.ts lines
992-1006. -/
def canaryPolicyActions : List (List Char) :=
  ["s3:PutObject".data, "s3:GetBucketLocation".data, "s3:ListAllMyBuckets".data,
    "cloudwatch:PutMetricData".data, "logs:CreateLogGroup".data,
    "logs:CreateLogStream".data, "logs:PutLogEvents".data]

/-- Placeholder for the ARN token of the freshly created role construct. -/
def serviceRoleArn : List Char := "ServiceRole.Arn".data

/-- Placeholder for `new s3.Bucket(this, 'ServiceBucket').s3UrlForObject()`,
the URL of the freshly created storage bucket. -/
def serviceBucketUrl : List Char := "ServiceBucket.s3Url".data

/-- The role created at canary.ts lines 1009-1012 when `props.role` is
absent. -/
def defaultServiceRole : RoleRef :=
  { assumedBy := "lambda.amazonaws.com".data
    inlinePolicies := [{ resources := ["*".data], actions := canaryPolicyActions }]
    roleArn := serviceRoleArn }

structure ScheduleProperty where
  durationInSeconds : List Char
  expression : List Char
deriving DecidableEq, Repr

structure CfnCanaryCodeProperty where
  handler : List Char
  script : Option (List Char)
  s3Bucket : Option (List Char)
  s3Key : Option (List Char)
  s3ObjectVersion : Option (List Char)
deriving DecidableEq, Repr

/-- The property record handed to the `CfnCanary` resource (canary.ts
lines 1020-1037). -/
structure CfnCanaryProps where
  artifactS3Location : List Char
  executionRoleArn : List Char
  startCanaryAfterCreation : Bool
  runtimeVersion : List Char
  name : List Char
  timeoutInSeconds : Nat
  schedule : ScheduleProperty
  failureRetentionPeriod : Option Nat
  successRetentionPeriod : Option Nat
  code : CfnCanaryCodeProperty
deriving DecidableEq, Repr

/-- Child constructs the constructor can register in the scope, listed in
registration order by `Canary.construct`. -/
inductive ChildResource where
  | serviceBucket : ChildResource
  | serviceRole (r : RoleRef) : ChildResource
  | codeAsset (a : AssetRef) : ChildResource
  | cfnCanary (p : CfnCanaryProps) : ChildResource
deriving DecidableEq, Repr

/-- `CanaryProps` of the third canary.ts revision.  Durations are
embedded as their second (or day, for the retention periods) counts. -/
structure CanaryProps where
  canaryName : List Char
  handler : List Char
  code : Code
  artifactS3Location : Option (List Char) := none
  role : Option RoleRef := none
  timeout : Option Nat := none
  lifetime : Option Nat := none
  rate : Option Rate := none
  enableCanary : Option Bool := none
  successRetentionPeriod : Option Nat := none
  failureRetentionPeriod : Option Nat := none
deriving DecidableEq, Repr

/-- The argument object of `new CfnCanary(this, 'Resource', {...})`
(canary.ts lines 1020-1037), as a function of the already-computed
constructor locals. -/
def mkCfnCanaryProps (s3Location : List Char) (role : RoleRef) (enable : Bool)
    (timeout duration : Nat) (expression : Rate)
    (failureRetention successRetention : Option Nat)
    (code : CodeConfig) (name handler : List Char) : CfnCanaryProps :=
  { artifactS3Location := s3Location
    executionRoleArn := role.roleArn
    startCanaryAfterCreation := enable
    runtimeVersion := "syn-1.0".data
    name := name
    timeoutInSeconds := timeout
    schedule := ⟨(Nat.repr duration).data, expression.expression⟩
    failureRetentionPeriod := failureRetention
    successRetentionPeriod := successRetention
    code :=
      { handler := handler
        script := code.inlineCode
        s3Bucket := (code.s3Location.map S3Location.bucketName)
        s3Key := (code.s3Location.map S3Location.objectKey)
        s3ObjectVersion := (code.s3Location.bind S3Location.objectVersion) } }

/-- The `Canary` constructor (canary.ts lines 987-1044) as a
state-passing function.  The returned list holds the child constructs
registered in the scope, in order, including those registered before a
validation error was thrown.  `newAsset` is the asset the external
packaging service would produce if `props.code` is an unbound
`AssetCode` (unused otherwise).

Evaluation order of the source:
1. `s3Location` — the `ServiceBucket` is created if `artifactS3Location`
   is absent (line 990);
2. `this.role` — the `ServiceRole` is created if `role` is absent
   (lines 1009-1012);
3. the `lifetime` / `rate` / `timeout` defaults (lines 1014-1016);
4. `props.code.bind(this)` (line 1018), which can create an asset child
   and can throw;
5. the `CfnCanary` argument object (lines 1020-1037), whose property
   values evaluate in source order, so `verifyName` throws before
   `verifyHandler`;
6. registration of the `CfnCanary` child. -/
def Canary.construct (props : CanaryProps) (newAsset : AssetRef) :
    List ChildResource × Except SynthError CfnCanaryProps :=
  let (bucketChildren, s3Location) :=
    match props.artifactS3Location with
    | some loc => ([], loc)
    | none => ([ChildResource.serviceBucket], serviceBucketUrl)
  let (roleChildren, role) :=
    match props.role with
    | some r => ([], r)
    | none => ([ChildResource.serviceRole defaultServiceRole], defaultServiceRole)
  let duration := props.lifetime.getD 0
  let expression := props.rate.getD Rate.ONE_MINUTE
  let timeout := props.timeout.getD 60
  let (_, createdAssets, codeRes) := props.code.bind newAsset
  let children := bucketChildren ++ roleChildren ++ createdAssets.map ChildResource.codeAsset
  match codeRes with
  | .error e => (children, .error e)
  | .ok code =>
    match Canary.verifyName props.canaryName with
    | .error e => (children, .error e)
    | .ok name =>
      match Canary.verifyHandler props.handler with
      | .error e => (children, .error e)
      | .ok handler =>
        let resource := mkCfnCanaryProps s3Location role
          (props.enableCanary.getD true) timeout duration expression
          props.failureRetentionPeriod props.successRetentionPeriod code name handler
        (children ++ [ChildResource.cfnCanary resource], .ok resource)

/-- A user program that builds the `Rate` from a raw expression string
and then invokes the `Canary` constructor — the only way an invalid rate
expression can reach a canary definition.  The `Rate` constructor throws
while the rate argument is evaluated, before `Canary` construction
begins, so in that case nothing is registered. -/
def buildCanaryWithRate (rawRate : List Char) (props : CanaryProps) (newAsset : AssetRef) :
    List ChildResource × Except SynthError CfnCanaryProps :=
  match Rate.new rawRate with
  | .error e => ([], .error e)
  | .ok rate => Canary.construct { props with rate := some rate } newAsset

/-! ### Canary.metric (canary.ts lines 1051-1059) -/

/-- Caller-supplied `MetricOptions` of the external cloudwatch
interface, restricted to the fields this module's defaults interact
with; `metricName` and `namespace` are not `MetricOptions` fields and
can never be overridden by the caller. -/
structure MetricOptions where
  dimensions : Option (List (List Char × List Char)) := none
  statistic : Option (List Char) := none
  period : Option Nat := none
deriving DecidableEq, Repr

/-- Modelled from the spec: the external cloudwatch `Metric` descriptor
`{namespace, metricName, dimensions, statistic, period}`, whose period
defaults to five minutes (300 seconds) when the caller supplies none,
and whose `attachTo` only scopes the metric to the resource without
changing any of these fields.  (`namespace` is a Lean keyword, so the
field is called `metricNamespace`.) -/
structure Metric where
  metricNamespace : List Char
  metricName : List Char
  dimensions : List (List Char × List Char)
  statistic : List Char
  period : Nat
deriving DecidableEq, Repr

/-- `Canary.metric` (canary.ts lines 1051-1059):

```
return new Metric({
  metricName,
  namespace: 'CloudWatchSynthetics',
  dimensions: { CanaryName: this.canaryName },
  statistic: 'avg',
  ...props,
}).attachTo(this);
```

The object spread lets every field present in `props` override the
corresponding default. -/
def Canary.metric (canaryName : List Char) (metricName : List Char)
    (props : MetricOptions) : Metric :=
  { metricNamespace := "CloudWatchSynthetics".data
    metricName := metricName
    dimensions := props.dimensions.getD [("CanaryName".data, canaryName)]
    statistic := props.statistic.getD "avg".data
    period := props.period.getD 300 }

/-! ### Shared concrete examples for witnesses and counterexamples -/

def exampleAsset : AssetRef := ⟨"assets-bucket".data, "asset.zip".data, true⟩

def exampleInlineProps : CanaryProps :=
  { canaryName := "mycanary".data
    handler := "index.handler".data
    code := .inline ⟨"foo".data⟩ }

/-! ### Claim theorems -/

theorem nameRegexTest_iff (n : List Char) :
    nameRegexTest n = true ↔ n ≠ [] ∧ ∀ c ∈ n, isNameChar c := by
  simp [nameRegexTest, List.isEmpty_iff, List.all_eq_true]

/-- Claim C3: for every canary name n, `Canary.verifyName` succeeds iff n
matches the anchored regular expression `^[0-9a-z_-]+$` (nonempty, every
character a digit, lowercase letter, underscore or hyphen) and n has at
most 21 characters; in particular the uppercase name "MyCanary" is
rejected with the name-format error. -/
theorem claim_C3_name_validation :
    (∀ n : List Char,
      Canary.verifyName n = .ok n ↔
        (n ≠ [] ∧ ∀ c ∈ n, isNameChar c) ∧ n.length ≤ 21) ∧
    Canary.verifyName "MyCanary".data = .error .nameFormat := by
  refine ⟨fun n => ?_, by decide⟩
  rw [← nameRegexTest_iff]
  unfold Canary.verifyName
  split_ifs with h1 h2
  · simp only [Bool.not_eq_true'] at h1
    simp [h1]
  · simp only [Bool.not_eq_true'] at h1
    constructor
    · intro h
      cases h
    · rintro ⟨-, hle⟩
      omega
  · simp only [Bool.not_eq_true'] at h1
    simp only [not_lt] at h2
    simp [h1, h2]

/-- Claim C4: the InlineCode constructor succeeds iff 1 ≤ len(s) ≤ MAX, where
MAX is 4096 in code.ts and 460800 in the src/unnamed/part_004 revision;
the empty string fails with the cannot-be-empty error, an oversized
string with the size error, and a successfully constructed InlineCode
binds to a config whose inlineCode is s and which has no s3Location. -/
theorem claim_C4_inline_code :
    ∀ s : List Char,
      (InlineCode.new s = .ok ⟨s⟩ ↔ 1 ≤ s.length ∧ s.length ≤ 4096) ∧
      (InlineCode.new s = .error .inlineEmpty ↔ s.length = 0) ∧
      (InlineCode.new s = .error (.inlineTooLarge s.length) ↔ s.length > 4096) ∧
      (InlineCodeV2.new s = .ok ⟨s⟩ ↔ 1 ≤ s.length ∧ s.length ≤ 460800) ∧
      (∀ c : InlineCode, InlineCode.new s = .ok c →
        c.bindConfig = { inlineCode := some s, s3Location := none }) := by
  intro s
  unfold InlineCode.new InlineCodeV2.new
  refine ⟨?_, ?_, ?_, ?_, ?_⟩
  · split_ifs with h1 h2
    · exact iff_of_false (by simp) (by omega)
    · exact iff_of_false (by simp) (by omega)
    · exact iff_of_true rfl (by omega)
  · split_ifs with h1 h2
    · exact iff_of_true rfl h1
    · exact iff_of_false (by simp) (by omega)
    · exact iff_of_false (by simp) (by omega)
  · split_ifs with h1 h2
    · exact iff_of_false (by simp) (by omega)
    · exact iff_of_true rfl (by omega)
    · exact iff_of_false (by simp) (by omega)
  · split_ifs with h1 h2
    · exact iff_of_false (by simp) (by omega)
    · exact iff_of_false (by simp) (by omega)
    · exact iff_of_true rfl (by omega)
  · intro c hc
    split_ifs at hc with h1 h2
    injection hc with h
    rw [← h]
    rfl

/-- Claim C10: the Expression class run-once preset holds the unterminated
string "rate(0 minute", which the Rate expression verifier rejects with
the format error, while the Rate class run-once preset holds the
well-formed "rate(0 minute)", which the verifier accepts. -/
theorem claim_C10_run_once_presets :
    Expression.RUN_ONCE.expression = "rate(0 minute".data ∧
    Rate.verifyExpression Expression.RUN_ONCE.expression = .error .rateFormat ∧
    Rate.RUN_ONCE.expression = "rate(0 minute)".data ∧
    Rate.verifyExpression Rate.RUN_ONCE.expression = .ok () := by decide

/-- The two split-based checks of `Canary.verifyHandler` combined: the
split has exactly two segments with a fixed second segment `b` iff the
string decomposes as `a ++ sep :: b` with the separator in neither
part. -/
theorem jsSplit_two_with_snd (sep : Char) (s b : List Char) (hb : sep ∉ b) :
    ((jsSplit sep s).length = 2 ∧ (jsSplit sep s).getD 1 [] = b) ↔
      ∃ a, s = a ++ sep :: b ∧ sep ∉ a := by
  constructor
  · rintro ⟨h2, hsnd⟩
    obtain ⟨x, y, hxy⟩ := List.length_eq_two.mp h2
    rw [hxy] at hsnd
    have hyb : y = b := hsnd
    rw [← hyb]
    obtain ⟨hs, hna, -⟩ := (jsSplit_eq_pair sep s x y).mp hxy
    exact ⟨x, hs, hna⟩
  · rintro ⟨a, rfl, hna⟩
    have hp := (jsSplit_eq_pair sep (a ++ sep :: b) a b).mpr ⟨rfl, hna, hb⟩
    rw [hp]
    simp

/-- Claim C2 counterexample: the handler "a.b.handler" ends with ".handler"
and has at most 21 characters, so by the claim both validators must
accept it; `Test.validateHandler` does, but `Canary.verifyHandler`
rejects it with the handler-format error. -/
theorem claim_C2_counterexample :
    ".handler".data.isSuffixOf "a.b.handler".data = true ∧
    ("a.b.handler".data).length ≤ 21 ∧
    Test.validateHandler "a.b.handler".data = .ok () ∧
    Canary.verifyHandler "a.b.handler".data = .error .handlerFormat := by decide

/-- Claim C2 amended: `Test.validateHandler` (used by Test.custom) succeeds
iff the handler ends with ".handler" and has at most 21 characters;
`Canary.verifyHandler` (used by the Canary constructor) is stricter — it
succeeds iff the handler is `p ++ "." ++ "handler"` for a dot-free
prefix p (exactly one dot, second component "handler") and has at most
21 characters. -/
theorem claim_C2_handler_validation :
    ∀ h : List Char,
      (Test.validateHandler h = .ok () ↔
        ".handler".data <:+ h ∧ h.length ≤ 21) ∧
      (Canary.verifyHandler h = .ok h ↔
        (∃ p, h = p ++ '.' :: "handler".data ∧ '.' ∉ p) ∧ h.length ≤ 21) := by
  intro h
  constructor
  · unfold Test.validateHandler
    split_ifs with h1 h2
    · refine iff_of_false (by simp) ?_
      rintro ⟨hsuf, -⟩
      rw [← List.isSuffixOf_iff_suffix] at hsuf
      simp [hsuf] at h1
    · refine iff_of_false (by simp) ?_
      rintro ⟨-, hle⟩
      omega
    · refine iff_of_true rfl ⟨?_, by omega⟩
      rw [← List.isSuffixOf_iff_suffix]
      simpa using h1
  · unfold Canary.verifyHandler
    split_ifs with h1 h2
    · refine iff_of_false (by simp) ?_
      rintro ⟨⟨p, rfl, hp⟩, -⟩
      have hts := (jsSplit_two_with_snd '.' (p ++ '.' :: "handler".data) "handler".data
        (by decide)).mpr ⟨p, rfl, hp⟩
      rcases h1 with h1 | h1
      · exact h1 hts.1
      · exact h1 hts.2
    · refine iff_of_false (by simp) ?_
      rintro ⟨-, hle⟩
      omega
    · rw [not_or, not_not, not_not] at h1
      refine iff_of_true rfl ⟨?_, by omega⟩
      obtain ⟨a, ha, hna⟩ := (jsSplit_two_with_snd '.' h "handler".data (by decide)).mp
        ⟨h1.1, h1.2⟩
      exact ⟨a, ha, hna⟩

/-- Claim C9: `Canary.metric` returns a descriptor with the fixed namespace
CloudWatchSynthetics and the requested metric name (neither overridable
through MetricOptions), and with a CanaryName dimension naming this
canary, the statistic avg (average), and a 300-second (five-minute)
period as defaults, each replaced by the caller-supplied value when the
corresponding MetricOptions field is present; the function is pure. -/
theorem claim_C9_metric_descriptor :
    ∀ (canaryName m : List Char) (p : MetricOptions),
      (Canary.metric canaryName m p).metricNamespace = "CloudWatchSynthetics".data ∧
      (Canary.metric canaryName m p).metricName = m ∧
      (Canary.metric canaryName m p).dimensions =
        p.dimensions.getD [("CanaryName".data, canaryName)] ∧
      (Canary.metric canaryName m p).statistic = p.statistic.getD "avg".data ∧
      (Canary.metric canaryName m p).period = p.period.getD 300 :=
  fun _ _ _ => ⟨rfl, rfl, rfl, rfl, rfl⟩

/-- Claim C8: binding the same Code object twice never recreates the
underlying artifact: whatever the first `bind` returned (the updated
object, the one batch of created assets, and its result), a second
`bind` on the updated object — even if the packaging service would now
produce a different asset — returns the same object, creates no new
asset, and returns the same CodeConfig (or repeats the same error).  In
particular an AssetCode reuses its cached first asset, and InlineCode
and S3Code always return the same inlineCode / s3Location. -/
theorem claim_C8_bind_idempotent :
    ∀ (code code2 : Code) (a1 a2 : AssetRef) (created : List AssetRef)
      (res : Except SynthError CodeConfig),
      Code.bind code a1 = (code2, created, res) →
      Code.bind code2 a2 = (code2, [], res) := by
  intro code code2 a1 a2 created res h
  cases code with
  | inline c =>
    simp only [Code.bind, Prod.mk.injEq] at h
    obtain ⟨h1, -, h3⟩ := h
    rw [← h1, ← h3]
    rfl
  | s3 c =>
    simp only [Code.bind, Prod.mk.injEq] at h
    obtain ⟨h1, -, h3⟩ := h
    rw [← h1, ← h3]
    rfl
  | asset c =>
    obtain ⟨path, cache⟩ := c
    cases cache with
    | none =>
      simp only [Code.bind, AssetCode.bindAsset, Prod.mk.injEq] at h
      obtain ⟨h1, -, h3⟩ := h
      rw [← h1, ← h3]
      simp only [Code.bind, AssetCode.bindAsset]
    | some a =>
      simp only [Code.bind, AssetCode.bindAsset, Prod.mk.injEq] at h
      obtain ⟨h1, -, h3⟩ := h
      rw [← h1, ← h3]
      simp only [Code.bind, AssetCode.bindAsset]

/-- Claim C8 witness: a first bind of an unbound AssetCode caches the produced
asset and a second bind reuses it, creating nothing. -/
theorem claim_C8_bind_idempotent_witness :
    Code.bind (.asset ⟨"p".data, none⟩) exampleAsset =
      (.asset ⟨"p".data, some exampleAsset⟩, [exampleAsset],
        .ok { s3Location := some ⟨"assets-bucket".data, "asset.zip".data, none⟩ }) ∧
    Code.bind (.asset ⟨"p".data, some exampleAsset⟩) ⟨"other".data, "other.zip".data, false⟩ =
      (.asset ⟨"p".data, some exampleAsset⟩, [],
        .ok { s3Location := some ⟨"assets-bucket".data, "asset.zip".data, none⟩ }) :=
  ⟨by decide,
    claim_C8_bind_idempotent (.asset ⟨"p".data, none⟩) (.asset ⟨"p".data, some exampleAsset⟩)
      exampleAsset ⟨"other".data, "other.zip".data, false⟩ [exampleAsset]
      (.ok { s3Location := some ⟨"assets-bucket".data, "asset.zip".data, none⟩ })
      (by decide)⟩

/-- The children `Canary.construct` registers before any validation can
throw: the defaulted bucket, the defaulted role, and the asset created
by `code.bind`. -/
def constructPreChildren (props : CanaryProps) (env : AssetRef) : List ChildResource :=
  (match props.artifactS3Location with
    | some _ => []
    | none => [ChildResource.serviceBucket]) ++
  (match props.role with
    | some _ => []
    | none => [ChildResource.serviceRole defaultServiceRole]) ++
  ((props.code.bind env).2.1.map ChildResource.codeAsset)

/-- Shape of a `Canary.construct` run: on an error the children are
exactly the prefix; on success the `CfnCanary` child is appended. -/
theorem construct_cases (props : CanaryProps) (env : AssetRef) :
    (∃ e, Canary.construct props env = (constructPreChildren props env, .error e)) ∨
    (∃ r, Canary.construct props env = (constructPreChildren props env ++ [ChildResource.cfnCanary r], .ok r)) := by
  unfold Canary.construct constructPreChildren
  rcases props.artifactS3Location with _ | loc <;>
    rcases props.role with _ | r0 <;>
      rcases hb : props.code.bind env with ⟨c2, created, res⟩ <;>
        rcases res with e | cfg <;>
          [skip; rcases hn : Canary.verifyName props.canaryName with e | nm;
            skip; rcases hn : Canary.verifyName props.canaryName with e | nm;
            skip; rcases hn : Canary.verifyName props.canaryName with e | nm;
            skip; rcases hn : Canary.verifyName props.canaryName with e | nm] <;>
          simp_all <;>
            rcases hh : Canary.verifyHandler props.handler with e | hd <;> simp_all

/-- Reduction of the result component of `Canary.construct` to the
sequenced validations and the emitted property record. -/
theorem construct_snd_eq (props : CanaryProps) (env : AssetRef) :
    (Canary.construct props env).2 =
      (match (props.code.bind env).2.2 with
        | .error e => .error e
        | .ok cfg =>
          match Canary.verifyName props.canaryName with
          | .error e => .error e
          | .ok name =>
            match Canary.verifyHandler props.handler with
            | .error e => .error e
            | .ok handler =>
              .ok (mkCfnCanaryProps
                (props.artifactS3Location.getD serviceBucketUrl)
                (props.role.getD defaultServiceRole)
                (props.enableCanary.getD true)
                (props.timeout.getD 60) (props.lifetime.getD 0)
                (props.rate.getD Rate.ONE_MINUTE) props.failureRetentionPeriod
                props.successRetentionPeriod cfg name handler)) := by
  unfold Canary.construct
  rcases props.artifactS3Location with _ | loc <;>
    rcases props.role with _ | r0 <;>
      rcases hb : props.code.bind env with ⟨c2, created, res⟩ <;>
        rcases res with e | cfg <;>
          simp_all <;>
            rcases hn : Canary.verifyName props.canaryName with e | nm <;>
              simp_all <;>
                rcases hh : Canary.verifyHandler props.handler with e | hd <;> simp_all

theorem cfnCanary_not_mem_constructPreChildren (props : CanaryProps) (env : AssetRef)
    (p : CfnCanaryProps) : ChildResource.cfnCanary p ∉ constructPreChildren props env := by
  unfold constructPreChildren
  rcases props.artifactS3Location with _ | loc <;>
    rcases props.role with _ | r0 <;>
      simp

def propsBadName : CanaryProps :=
  { canaryName := "MyCanary".data
    handler := "index.handler".data
    code := .inline ⟨"foo".data⟩ }

def propsBadHandler : CanaryProps :=
  { canaryName := "mycanary".data
    handler := "index.function".data
    code := .inline ⟨"foo".data⟩ }

def exampleCfnProps : CfnCanaryProps :=
  { artifactS3Location := []
    executionRoleArn := []
    startCanaryAfterCreation := false
    runtimeVersion := []
    name := []
    timeoutInSeconds := 0
    schedule := ⟨[], []⟩
    failureRetentionPeriod := none
    successRetentionPeriod := none
    code := ⟨[], none, none, none, none⟩ }

/-- Claim C5 counterexample: constructing a Canary with the invalid name
"MyCanary" and defaulted bucket and role throws the name-format error,
but at that point the storage bucket and the IAM role have already been
registered in the scope — the state is not unchanged on error. -/
theorem claim_C5_counterexample :
    Canary.construct propsBadName exampleAsset =
      ([ChildResource.serviceBucket, ChildResource.serviceRole defaultServiceRole],
        .error .nameFormat) := by decide

/-- Claim C5 amended: when construction fails, the canary resource definition
itself has never been registered (the CfnCanary child is only appended
after all validation passes); however children created before
validation — the defaulted bucket, the defaulted role, and a bound code
asset — remain registered. -/
theorem claim_C5_no_canary_resource_on_error :
    ∀ (props : CanaryProps) (env : AssetRef) (e : SynthError),
      (Canary.construct props env).2 = .error e →
      ∀ p : CfnCanaryProps, ChildResource.cfnCanary p ∉ (Canary.construct props env).1 := by
  intro props env e herr p
  rcases construct_cases props env with ⟨e2, hc⟩ | ⟨r, hc⟩
  · rw [hc]
    exact cfnCanary_not_mem_constructPreChildren props env p
  · rw [hc] at herr
    exact absurd herr (by simp)

/-- Claim C5 witness: the amended theorem applied to the invalid-name
construction. -/
theorem claim_C5_no_canary_resource_on_error_witness :
    (Canary.construct propsBadName exampleAsset).2 = .error .nameFormat ∧
    ChildResource.cfnCanary exampleCfnProps ∉ (Canary.construct propsBadName exampleAsset).1 :=
  ⟨by decide,
    claim_C5_no_canary_resource_on_error propsBadName exampleAsset .nameFormat
      (by decide) exampleCfnProps⟩

/-- Claim C6 counterexample: with an invalid name ("MyCanary") and an invalid
rate ("rate(100 minutes)") supplied together, the error thrown is the
rate range error — not the name error the claim predicts — because the
rate is validated by the Rate constructor before Canary construction
begins. -/
theorem claim_C6_counterexample :
    buildCanaryWithRate "rate(100 minutes)".data propsBadName exampleAsset =
      ([], .error .rateRange) := by decide

/-- Claim C6 amended: within the Canary constructor the name is validated
before the handler, so with both invalid the name error wins (provided
code binding succeeded, which it always does for inline and S3 code);
but rate validation happens earlier, in the Rate constructor, before
Canary construction starts, so an invalid rate expression throws its own
error first and nothing at all is registered. -/
theorem claim_C6_validation_order :
    ∀ (props : CanaryProps) (env : AssetRef) (raw : List Char)
      (cfg : CodeConfig) (e : SynthError),
      ((props.code.bind env).2.2 = .ok cfg →
        Canary.verifyName props.canaryName = .error e →
        (Canary.construct props env).2 = .error e) ∧
      ((props.code.bind env).2.2 = .ok cfg →
        (∃ nm, Canary.verifyName props.canaryName = .ok nm) →
        Canary.verifyHandler props.handler = .error e →
        (Canary.construct props env).2 = .error e) ∧
      (Rate.new raw = .error e →
        buildCanaryWithRate raw props env = ([], .error e)) := by
  intro props env raw cfg e
  refine ⟨?_, ?_, ?_⟩
  · intro hb hn
    rw [construct_snd_eq, hb, hn]
  · rintro hb ⟨nm, hn⟩ hh
    rw [construct_snd_eq, hb, hn, hh]
  · intro hr
    unfold buildCanaryWithRate
    rw [hr]

/-- Claim C6 witness: the three clauses of the amended theorem applied to
concrete constructions — bad name plus bad handler yields the name
error, good name plus bad handler yields the handler error, and a
100-minute rate yields the range error before anything is registered. -/
theorem claim_C6_validation_order_witness :
    (Canary.construct
        { canaryName := "MyCanary".data
          handler := "index.function".data
          code := .inline ⟨"foo".data⟩ } exampleAsset).2 = .error .nameFormat ∧
    (Canary.construct propsBadHandler exampleAsset).2 = .error .handlerFormat ∧
    buildCanaryWithRate "rate(100 minutes)".data propsBadName exampleAsset =
      ([], .error .rateRange) :=
  ⟨(claim_C6_validation_order
      { canaryName := "MyCanary".data
        handler := "index.function".data
        code := .inline ⟨"foo".data⟩ } exampleAsset [] ⟨none, some "foo".data⟩
      .nameFormat).1 (by decide) (by decide),
    (claim_C6_validation_order propsBadHandler exampleAsset [] ⟨none, some "foo".data⟩
      .handlerFormat).2.1 (by decide) ⟨"mycanary".data, by decide⟩ (by decide),
    (claim_C6_validation_order propsBadName exampleAsset "rate(100 minutes)".data
      ⟨none, some "foo".data⟩ .rateRange).2.2 (by decide)⟩

/-- Claim C7: when role, artifact location, schedule rate, and timeout are all
omitted, construction registers a fresh bucket and a fresh role holding
exactly the seven fixed actions (s3:PutObject, s3:GetBucketLocation,
s3:ListAllMyBuckets, cloudwatch:PutMetricData, logs:CreateLogGroup,
logs:CreateLogStream, logs:PutLogEvents) assumable by
lambda.amazonaws.com, and the emitted resource carries the fresh
bucket's URL, that role's ARN, the one-minute rate expression and a
60-second timeout. -/
theorem claim_C7_defaults :
    ∀ (props : CanaryProps) (env : AssetRef) (res : CfnCanaryProps),
      props.role = none → props.artifactS3Location = none →
      props.rate = none → props.timeout = none →
      (Canary.construct props env).2 = .ok res →
      ChildResource.serviceBucket ∈ (Canary.construct props env).1 ∧
      ChildResource.serviceRole defaultServiceRole ∈ (Canary.construct props env).1 ∧
      defaultServiceRole.inlinePolicies =
        [{ resources := ["*".data], actions := canaryPolicyActions }] ∧
      defaultServiceRole.assumedBy = "lambda.amazonaws.com".data ∧
      res.artifactS3Location = serviceBucketUrl ∧
      res.executionRoleArn = defaultServiceRole.roleArn ∧
      res.schedule.expression = "rate(1 minute)".data ∧
      res.timeoutInSeconds = 60 := by
  intro props env res hrole hart hrate htime hok
  obtain ⟨r, hc⟩ : ∃ r, Canary.construct props env =
      (constructPreChildren props env ++ [ChildResource.cfnCanary r], .ok r) := by
    rcases construct_cases props env with ⟨e2, hc⟩ | h
    · rw [hc] at hok
      exact absurd hok (by simp)
    · exact h
  have hsnd := construct_snd_eq props env
  rw [hok] at hsnd
  rcases hb : (props.code.bind env).2.2 with e | cfg <;> rw [hb] at hsnd
  · exact absurd hsnd (by simp)
  rcases hn : Canary.verifyName props.canaryName with e | nm <;> rw [hn] at hsnd
  · exact absurd hsnd (by simp)
  rcases hh : Canary.verifyHandler props.handler with e | hd <;> rw [hh] at hsnd
  · exact absurd hsnd (by simp)
  injection hsnd with hres
  refine ⟨?_, ?_, rfl, rfl, ?_, ?_, ?_, ?_⟩
  · rw [hc]
    simp [constructPreChildren, hart, hrole]
  · rw [hc]
    simp [constructPreChildren, hart, hrole]
  · rw [hres, hart]
    rfl
  · rw [hres, hrole]
    rfl
  · rw [hres, hrate]
    rfl
  · rw [hres, htime]
    rfl

def exampleDefaultRes : CfnCanaryProps :=
  mkCfnCanaryProps serviceBucketUrl defaultServiceRole true 60 0 Rate.ONE_MINUTE none none
    { inlineCode := some "foo".data } "mycanary".data "index.handler".data

/-- Claim C7 witness: the default construction of the example inline canary. -/
theorem claim_C7_defaults_witness :
    (Canary.construct exampleInlineProps exampleAsset).2 = .ok exampleDefaultRes ∧
    (ChildResource.serviceBucket ∈ (Canary.construct exampleInlineProps exampleAsset).1 ∧
      ChildResource.serviceRole defaultServiceRole ∈
        (Canary.construct exampleInlineProps exampleAsset).1 ∧
      defaultServiceRole.inlinePolicies =
        [{ resources := ["*".data], actions := canaryPolicyActions }] ∧
      defaultServiceRole.assumedBy = "lambda.amazonaws.com".data ∧
      exampleDefaultRes.artifactS3Location = serviceBucketUrl ∧
      exampleDefaultRes.executionRoleArn = defaultServiceRole.roleArn ∧
      exampleDefaultRes.schedule.expression = "rate(1 minute)".data ∧
      exampleDefaultRes.timeoutInSeconds = 60) :=
  ⟨by decide,
    claim_C7_defaults exampleInlineProps exampleAsset exampleDefaultRes
      rfl rfl rfl rfl (by decide)⟩

/-! ### Characterization of Rate.verifyExpression (claim C1) -/

/-- A rate expression decomposed as `rate(` ++ n ++ ` ` ++ u ++ `)` with
a recognised unit and with neither a space nor an opening parenthesis
inside the numeric part (so the two splits of the verifier each find
exactly two segments). -/
def rateDecomp (expr n u : List Char) : Prop :=
  expr = "rate(".data ++ n ++ ' ' :: (u ++ [')']) ∧
  (u = "minute".data ∨ u = "minutes".data ∨ u = "hour".data) ∧
  ' ' ∉ n ∧ '(' ∉ n

/-- The range conditions of the verifier for a decomposed expression:
at most 1 for `hour`, at most 60 for `minutes` (no bound for the
singular `minute`). -/
def rateRangeOk (n u : List Char) : Prop :=
  (u = "hour".data → (jsNumber n).gtNat 1 = false) ∧
  (u = "minutes".data → (jsNumber n).gtNat 60 = false)

theorem rateDecomp_splits {expr n u : List Char} (hd : rateDecomp expr n u) :
    jsSplit ' ' expr = ["rate(".data ++ n, u ++ [')']] ∧
    jsSplit '(' ("rate(".data ++ n) = ["rate".data, n] := by
  obtain ⟨heq, hu, hns, hnp⟩ := hd
  constructor
  · apply (jsSplit_eq_pair ' ' expr _ _).mpr
    refine ⟨by rw [heq], ?_, ?_⟩
    · intro hmem
      rcases List.mem_append.mp hmem with h1 | h1
      · exact absurd h1 (by decide)
      · exact hns h1
    · rcases hu with rfl | rfl | rfl <;> decide
  · apply (jsSplit_eq_pair '(' _ _ _).mpr
    exact ⟨rfl, by decide, hnp⟩

/-- Evaluation of the verifier on a decomposed expression: a NaN numeric
part is a format error, an out-of-range value a range error, anything
else passes. -/
theorem verifyExpression_decomp {expr n u : List Char} (hd : rateDecomp expr n u) :
    Rate.verifyExpression expr =
      if (jsNumber n).isNaN then .error .rateFormat
      else if (u = "hour".data ∧ (jsNumber n).gtNat 1) ∨
          (u = "minutes".data ∧ (jsNumber n).gtNat 60) then .error .rateRange
      else .ok () := by
  obtain ⟨hs1, hs2⟩ := rateDecomp_splits hd
  obtain ⟨-, hu, -, -⟩ := hd
  unfold Rate.verifyExpression
  rw [hs1]
  simp only [List.headD_cons, List.getD_cons_succ, List.getD_cons_zero,
    List.length_cons, List.length_nil]
  have hs2l : jsSplit '(' (['r', 'a', 't', 'e', '('] ++ n) = [['r', 'a', 't', 'e'], n] := hs2
  simp only [hs2l, List.headD_cons, List.getD_cons_succ, List.getD_cons_zero,
    List.length_cons, List.length_nil]
  rcases hu with rfl | rfl | rfl <;>
    by_cases hnan : (jsNumber n).isNaN <;>
      by_cases hgt1 : (jsNumber n).gtNat 1 <;>
        by_cases hgt60 : (jsNumber n).gtNat 60 <;>
          simp +decide [hnan, hgt1, hgt60]

/-- Any verifier outcome other than the format error yields a
decomposition with a non-NaN numeric part. -/
theorem verifyExpression_not_format {expr : List Char}
    (h : Rate.verifyExpression expr ≠ .error .rateFormat) :
    ∃ n u, rateDecomp expr n u ∧ (jsNumber n).isNaN = false := by
  simp only [Rate.verifyExpression] at h
  split_ifs at h with h1 h2
  · exact absurd rfl h
  all_goals
    push_neg at h1
    obtain ⟨hlen, hlen2, hhead, hnan, hunit⟩ := h1
    obtain ⟨a, b, hab⟩ := List.length_eq_two.mp hlen
    rw [hab] at hlen2 hhead hnan hunit
    simp only [List.headD_cons, List.getD_cons_succ, List.getD_cons_zero] at hlen2 hhead hnan hunit
    obtain ⟨c, d, hcd⟩ := List.length_eq_two.mp hlen2
    rw [hcd] at hhead hnan
    simp only [List.headD_cons, List.getD_cons_succ, List.getD_cons_zero] at hhead hnan
    obtain ⟨ha, hnpa, hnpd⟩ := (jsSplit_eq_pair '(' a c d).mp hcd
    obtain ⟨hexpr, hnsa, hnsb⟩ := (jsSplit_eq_pair ' ' expr a b).mp hab
    rw [hhead] at ha
    rw [ha] at hexpr hnsa
    have hnan' : (jsNumber d).isNaN = false := by simpa using hnan
    have hnsd : ' ' ∉ d := fun hm =>
      hnsa (List.mem_append.mpr (Or.inr (List.mem_cons_of_mem _ hm)))
    by_cases hb1 : b = "minute)".data
    · rw [hb1] at hexpr
      exact ⟨d, "minute".data, ⟨hexpr, Or.inl rfl, hnsd, hnpd⟩, hnan'⟩
    · by_cases hb2 : b = "minutes)".data
      · rw [hb2] at hexpr
        exact ⟨d, "minutes".data, ⟨hexpr, Or.inr (Or.inl rfl), hnsd, hnpd⟩, hnan'⟩
      · rw [hunit hb1 hb2] at hexpr
        exact ⟨d, "hour".data, ⟨hexpr, Or.inr (Or.inr rfl), hnsd, hnpd⟩, hnan'⟩

theorem Rate.new_ok_iff (expr : List Char) :
    Rate.new expr = .ok ⟨expr⟩ ↔ Rate.verifyExpression expr = .ok () := by
  unfold Rate.new
  rcases h : Rate.verifyExpression expr with e | u
  · simp [h, Bind.bind, Except.bind]
  · cases u
    simp [h, Bind.bind, Except.bind, pure, Except.pure]

theorem Rate.new_error_iff (expr : List Char) (e : SynthError) :
    Rate.new expr = .error e ↔ Rate.verifyExpression expr = .error e := by
  unfold Rate.new
  rcases h : Rate.verifyExpression expr with e2 | u
  · simp [h, Bind.bind, Except.bind]
  · cases u
    simp [h, Bind.bind, Except.bind, pure, Except.pure]

/-- Claim C1 amended: constructing a Rate from expr succeeds iff expr is
`rate(` ++ n ++ ` ` ++ u ++ `)` with u one of minute / minutes / hour,
n a space-free parenthesis-free string that JavaScript Number() converts
to a non-NaN value (this admits non-integers such as 1.5, an empty or
all-blank n, signed, exponent and radix-prefixed forms — not only
integers), and that value — the IEEE-754 binary64 double JavaScript
computes, so for example 60.0000000000000001 counts as exactly 60 — at
most 1 for hour and at most 60 for minutes; an in-form expression whose
value exceeds the bound fails with the must-not-be-greater-than-1-hour
range error, and every other string fails with the format error. -/
theorem claim_C1_rate_parse_characterization :
    ∀ expr : List Char,
      (Rate.new expr = .ok ⟨expr⟩ ↔
        ∃ n u, rateDecomp expr n u ∧ (jsNumber n).isNaN = false ∧ rateRangeOk n u) ∧
      (Rate.new expr = .error .rateRange ↔
        ∃ n u, rateDecomp expr n u ∧ (jsNumber n).isNaN = false ∧ ¬ rateRangeOk n u) ∧
      (Rate.new expr = .error .rateFormat ↔
        ¬ ∃ n u, rateDecomp expr n u ∧ (jsNumber n).isNaN = false) := by
  intro expr
  rw [Rate.new_ok_iff expr, Rate.new_error_iff expr .rateRange,
    Rate.new_error_iff expr .rateFormat]
  refine ⟨⟨?_, ?_⟩, ⟨?_, ?_⟩, ⟨?_, ?_⟩⟩
  · intro hok
    obtain ⟨n, u, hd, hnan⟩ := verifyExpression_not_format (by rw [hok]; simp)
    refine ⟨n, u, hd, hnan, ?_, ?_⟩
    · intro hu
      have hv := verifyExpression_decomp hd
      rw [hok] at hv
      by_cases hgt : (jsNumber n).gtNat 1 = true
      · rw [if_neg (by simp [hnan]), if_pos (Or.inl ⟨hu, hgt⟩)] at hv
        cases hv
      · simpa using hgt
    · intro hu
      have hv := verifyExpression_decomp hd
      rw [hok] at hv
      by_cases hgt : (jsNumber n).gtNat 60 = true
      · rw [if_neg (by simp [hnan]), if_pos (Or.inr ⟨hu, hgt⟩)] at hv
        cases hv
      · simpa using hgt
  · rintro ⟨n, u, hd, hnan, hr⟩
    have hv := verifyExpression_decomp hd
    rw [hv]
    have hcond : ¬ ((u = "hour".data ∧ (jsNumber n).gtNat 1 = true) ∨
        (u = "minutes".data ∧ (jsNumber n).gtNat 60 = true)) := by
      rintro (⟨hu, hgt⟩ | ⟨hu, hgt⟩)
      · rw [hr.1 hu] at hgt
        cases hgt
      · rw [hr.2 hu] at hgt
        cases hgt
    rw [if_neg (by simp [hnan]), if_neg hcond]
  · intro herr
    obtain ⟨n, u, hd, hnan⟩ := verifyExpression_not_format (by rw [herr]; simp)
    refine ⟨n, u, hd, hnan, ?_⟩
    intro hrok
    have hv := verifyExpression_decomp hd
    rw [herr] at hv
    rw [if_neg (by simp [hnan])] at hv
    have hcond : ¬ ((u = "hour".data ∧ (jsNumber n).gtNat 1 = true) ∨
        (u = "minutes".data ∧ (jsNumber n).gtNat 60 = true)) := by
      rintro (⟨hu, hgt⟩ | ⟨hu, hgt⟩)
      · rw [hrok.1 hu] at hgt
        cases hgt
      · rw [hrok.2 hu] at hgt
        cases hgt
    rw [if_neg hcond] at hv
    cases hv
  · rintro ⟨n, u, hd, hnan, hnrok⟩
    have hv := verifyExpression_decomp hd
    rw [hv, if_neg (by simp [hnan])]
    have hcond : (u = "hour".data ∧ (jsNumber n).gtNat 1 = true) ∨
        (u = "minutes".data ∧ (jsNumber n).gtNat 60 = true) := by
      by_contra hc
      push_neg at hc
      refine hnrok ⟨fun hu => ?_, fun hu => ?_⟩
      · have := hc.1 hu
        simpa using this
      · have := hc.2 hu
        simpa using this
    rw [if_pos hcond]
  · intro hfmt
    rintro ⟨n, u, hd, hnan⟩
    have hv := verifyExpression_decomp hd
    rw [hfmt] at hv
    rw [if_neg (by simp [hnan])] at hv
    by_cases hcond : (u = "hour".data ∧ (jsNumber n).gtNat 1 = true) ∨
        (u = "minutes".data ∧ (jsNumber n).gtNat 60 = true)
    · rw [if_pos hcond] at hv
      cases hv
    · rw [if_neg hcond] at hv
      cases hv
  · intro hne
    by_contra hne2
    exact hne (verifyExpression_not_format hne2)

/-- A decimal integer literal, optionally signed: the form the claim
means by `rate(N unit)` with N an integer. -/
def isIntegerLit (s : List Char) : Bool :=
  match s with
  | '+' :: d => !d.isEmpty && d.all isDecDigit
  | '-' :: d => !d.isEmpty && d.all isDecDigit
  | d => !d.isEmpty && d.all isDecDigit

/-- The claim's notion of a well-formed rate expression: `rate(N unit)`
with N an integer literal and a recognised unit. -/
def claimC1Form (expr : List Char) : Prop :=
  ∃ nStr u, expr = "rate(".data ++ nStr ++ ' ' :: (u ++ [')']) ∧
    (u = "minute".data ∨ u = "minutes".data ∨ u = "hour".data) ∧
    isIntegerLit nStr = true

/-- Claim C1 counterexample: "rate(1.5 minutes)" is not of the claimed form
rate(integer unit) — 1.5 is not an integer — so by the claim it must be
rejected with a format error; but the Rate constructor accepts it,
because the verifier only requires the numeric part to convert to a
non-NaN JavaScript number. -/
theorem claim_C1_counterexample :
    Rate.new "rate(1.5 minutes)".data = .ok ⟨"rate(1.5 minutes)".data⟩ ∧
    ¬ claimC1Form "rate(1.5 minutes)".data := by
  refine ⟨by decide, ?_⟩
  rintro ⟨nStr, u, heq, hu, hint⟩
  rw [List.append_assoc] at heq
  rcases hu with rfl | rfl | rfl
  · have hA := Eq.trans
      (show "rate(".data ++ ("1.5 ".data ++ "minutes)".data) =
        "rate(1.5 minutes)".data by decide) heq
    have h4 := (List.append_inj' (List.append_cancel_left hA) (by decide)).1
    rw [← h4] at hint
    exact absurd hint (by decide)
  · have hA := Eq.trans
      (show "rate(".data ++ ("1.5".data ++ " minutes)".data) =
        "rate(1.5 minutes)".data by decide) heq
    have h4 := (List.append_inj' (List.append_cancel_left hA) (by decide)).1
    rw [← h4] at hint
    exact absurd hint (by decide)
  · have hA := Eq.trans
      (show "rate(".data ++ ("1.5 mi".data ++ "nutes)".data) =
        "rate(1.5 minutes)".data by decide) heq
    have h4 := (List.append_inj' (List.append_cancel_left hA) (by decide)).1
    rw [← h4] at hint
    exact absurd hint (by decide)

/-- Claim C4 witness: the inline code "foo" constructs and binds to its
own text. -/
theorem claim_C4_inline_code_witness :
    InlineCode.new "foo".data = .ok ⟨"foo".data⟩ ∧
    (InlineCode.mk "foo".data).bindConfig =
      { s3Location := none, inlineCode := some "foo".data } :=
  ⟨by decide, (claim_C4_inline_code "foo".data).2.2.2.2 ⟨"foo".data⟩ (by decide)⟩

end AwsSynthetics
